import Mathlib

/-!
Verification of `src/lab2/ncf/src/inference.py`: a SageMaker pre/post-processing
handler that forwards a JSON batch of one-hot-encoded instances to a model
server and returns the per-item prediction scores ranked in descending order.

The Python code is shallowly embedded as executable Lean definitions:

* JSON values are `JValue`; JSON numbers are kept as exact decimals
  `JNum` (mantissa/decimal-exponent), so that the ordering Python's floats
  induce on the parsed literals, and the text `repr` produces for them,
  are modeled exactly.
* `json.loads` is modeled by a fuel-based recursive-descent routine
  (`json_loads`) covering objects, arrays, escape-free strings and plain
  decimal numbers — the JSON subset the adapter's interface uses.
* `json.dumps` is modeled by `json_dumps` with Python's default separators
  `", "` and `": "`.
* Python exceptions become the `PyError` sum; each `raise` site of the source
  (all of them `ValueError` at runtime) gets its own constructor carrying the
  message, following the spec's error taxonomy.
* `requests.post` is modeled by a caller-supplied pure `server` function from
  (uri, body) to a `Response`; the handler additionally returns the list of
  bodies it POSTed, so "the model server is never called" is statable.
-/

/-- An exact decimal number `m / 10 ^ e`, the value denoted by a JSON numeric
literal (integer when `e = 0`). -/
structure JNum where
  m : Int
  e : Nat
deriving DecidableEq, Repr

/-- A parsed JSON value, as produced by the modeled `json.loads`.
(The adapter's interface never uses `true`/`false`/`null`, which the modeled
parser therefore rejects.) -/
inductive JValue where
  | jnum : JNum → JValue
  | jstr : String → JValue
  | jarr : List JValue → JValue
  | jobj : List (String × JValue) → JValue
deriving Repr

/-- Numeric order on exact decimals: `a.m / 10^a.e ≤ b.m / 10^b.e`,
cross-multiplied. This is the order Python's `<` puts on the floats
`json.loads` parses these literals to. -/
def JNum.le (a b : JNum) : Bool :=
  decide (a.m * (10 : Int) ^ b.e ≤ b.m * (10 : Int) ^ a.e)

/-- Numeric equality of exact decimals (Python `==` on the parsed numbers). -/
def JNum.valEq (a b : JNum) : Bool :=
  decide (a.m * (10 : Int) ^ b.e = b.m * (10 : Int) ^ a.e)

/-- The rational value denoted by a `JNum`. -/
def JNum.toRat (a : JNum) : ℚ := (a.m : ℚ) / (10 : ℚ) ^ a.e

/-- Python exceptions raised by the handler, tagged by raise site following
the spec's taxonomy (§7).  `unsupportedContentType`, `valueNotFound` and
`modelServerError` are all `ValueError` at runtime in the source, raised at
distinct sites; the rest are the interpreter's own exceptions. -/
inductive PyError where
  | unsupportedContentType : String → PyError
  | valueNotFound : String → PyError
  | modelServerError : String → PyError
  | keyError : String → PyError
  | indexError : String → PyError
  | typeError : String → PyError
  | jsonDecodeError : String → PyError
deriving DecidableEq, Repr

/-- The request/configuration context supplied by the hosting framework
(`context` in the source).  `request_content_type` is `none` when the header
is absent. -/
structure Context where
  request_content_type : Option String
  accept_header : String
  rest_uri : String

/-- A `requests` HTTP response: status code and body (bytes, modeled as their
utf-8 decoding). -/
structure Response where
  status_code : Nat
  content : String

/-! ### The modeled `json.loads` -/

/-- Drop leading JSON whitespace. -/
def skipWs : List Char → List Char
  | [] => []
  | c :: cs =>
    if c == ' ' || c == '\t' || c == '\n' || c == '\r' then skipWs cs
    else c :: cs

/-- Scan a string body up to the closing quote (escapes unsupported:
none occur in the adapter's interface). -/
def takeStr : List Char → Option (List Char × List Char)
  | [] => none
  | c :: cs =>
    if c == '"' then some ([], cs)
    else if c == '\\' then none
    else (takeStr cs).map (fun sr => (c :: sr.1, sr.2))

/-- Split off a maximal run of leading decimal digits. -/
def takeDigits : List Char → List Char × List Char
  | [] => ([], [])
  | c :: cs =>
    if c.isDigit then
      let dr := takeDigits cs
      (c :: dr.1, dr.2)
    else ([], c :: cs)

/-- Digit run to its value. -/
def digitsToNat (ds : List Char) : Nat :=
  ds.foldl (fun acc c => 10 * acc + (c.toNat - '0'.toNat)) 0

/-- Parse a JSON number: optional sign, digits, optional fraction. -/
def parseNum (cs : List Char) : Option (JValue × List Char) :=
  let sgn := match cs with
    | '-' :: rest => (true, rest)
    | _ => (false, cs)
  let d1r := takeDigits sgn.2
  if d1r.1.isEmpty then none
  else
    match d1r.2 with
    | '.' :: cs3 =>
      let d2r := takeDigits cs3
      if d2r.1.isEmpty then none
      else
        let mAbs : Int := (digitsToNat (d1r.1 ++ d2r.1) : Int)
        some (.jnum ⟨if sgn.1 then -mAbs else mAbs, d2r.1.length⟩, d2r.2)
    | rest =>
      let mAbs : Int := (digitsToNat d1r.1 : Int)
      some (.jnum ⟨if sgn.1 then -mAbs else mAbs, 0⟩, rest)

/-- Insert a key into a Python dict: an existing key keeps its position and
gets the new value, a new key is appended (insertion order). -/
def dictInsert (fields : List (String × JValue)) (k : String) (v : JValue) :
    List (String × JValue) :=
  match fields with
  | [] => [(k, v)]
  | f :: rest => if f.1 == k then (f.1, v) :: rest else f :: dictInsert rest k v

/-- Fold a parsed field list into a Python dict (later duplicates override). -/
def buildDict (fs : List (String × JValue)) : List (String × JValue) :=
  fs.foldl (fun d kv => dictInsert d kv.1 kv.2) []

mutual

/-- Parse one JSON value (fuel-based recursion). -/
def parseVal : Nat → List Char → Option (JValue × List Char)
  | 0, _ => none
  | fuel + 1, cs =>
    match skipWs cs with
    | [] => none
    | c :: rest =>
      if c == '"' then (takeStr rest).map (fun sr => (.jstr (String.mk sr.1), sr.2))
      else if c == '[' then
        match skipWs rest with
        | ']' :: r2 => some (.jarr [], r2)
        | cs2 => (parseItems fuel cs2).map (fun xr => (.jarr xr.1, xr.2))
      else if c == '\x7b' then
        match skipWs rest with
        | '\x7d' :: r2 => some (.jobj [], r2)
        | cs2 => (parseFields fuel cs2).map (fun fr => (.jobj (buildDict fr.1), fr.2))
      else parseNum (c :: rest)

/-- Parse the comma-separated items of a non-empty JSON array, including the
closing bracket. -/
def parseItems : Nat → List Char → Option (List JValue × List Char)
  | 0, _ => none
  | fuel + 1, cs => do
    let vr ← parseVal fuel cs
    match skipWs vr.2 with
    | ',' :: r2 => do
      let xr ← parseItems fuel r2
      pure (vr.1 :: xr.1, xr.2)
    | ']' :: r2 => pure ([vr.1], r2)
    | _ => none

/-- Parse the comma-separated fields of a non-empty JSON object, including the
closing brace; fields are returned in source order. -/
def parseFields : Nat → List Char → Option (List (String × JValue) × List Char)
  | 0, _ => none
  | fuel + 1, cs =>
    match skipWs cs with
    | '"' :: r1 => do
      let kr ← takeStr r1
      match skipWs kr.2 with
      | ':' :: r3 => do
        let vr ← parseVal fuel r3
        match skipWs vr.2 with
        | ',' :: r5 => do
          let fr ← parseFields fuel r5
          pure ((String.mk kr.1, vr.1) :: fr.1, fr.2)
        | '\x7d' :: r5 => pure ([(String.mk kr.1, vr.1)], r5)
        | _ => none
      | _ => none
    | _ => none

end

/-- The modeled `json.loads`: parse the whole string as one JSON value,
rejecting trailing garbage. -/
def json_loads (s : String) : Except PyError JValue :=
  match parseVal (2 * s.length + 2) s.toList with
  | some vr =>
    if (skipWs vr.2).isEmpty then .ok vr.1
    else .error (.jsonDecodeError s)
  | none => .error (.jsonDecodeError s)

/-! ### The modeled `json.dumps` -/

/-- Python's text for a parsed JSON number: the integer digits when `e = 0`,
otherwise the decimal form with `e` fractional digits (what `repr` prints for
the float a plain decimal literal parses to). -/
def dumpJNum (n : JNum) : String :=
  if n.e = 0 then toString n.m
  else
    let s := toString n.m.natAbs
    let s := String.mk (List.replicate (n.e + 1 - s.length) '0') ++ s
    (if n.m < 0 then "-" else "") ++
      (s.take (s.length - n.e)) ++ "." ++ (s.drop (s.length - n.e))

mutual

/-- The modeled `json.dumps`, with Python's default separators. -/
def json_dumps : JValue → String
  | .jnum n => dumpJNum n
  | .jstr s => "\"" ++ s ++ "\""
  | .jarr xs => "[" ++ dumpItems xs ++ "]"
  | .jobj fs => "\x7b" ++ dumpFields fs ++ "\x7d"

/-- Array elements, `", "`-separated. -/
def dumpItems : List JValue → String
  | [] => ""
  | [x] => json_dumps x
  | x :: xs => json_dumps x ++ ", " ++ dumpItems xs

/-- Object fields, `", "`-separated with `": "` after each key. -/
def dumpFields : List (String × JValue) → String
  | [] => ""
  | [kv] => "\"" ++ kv.1 ++ "\": " ++ json_dumps kv.2
  | kv :: fs => "\"" ++ kv.1 ++ "\": " ++ json_dumps kv.2 ++ ", " ++ dumpFields fs

end

/-! ### Python data-access primitives used by the handler -/

/-- Python subscript `v[k]` with a string key. -/
def jGetKey (v : JValue) (k : String) : Except PyError JValue :=
  match v with
  | .jobj fields =>
    match fields.find? (fun f => f.1 == k) with
    | some f => .ok f.2
    | none => .error (.keyError k)
  | .jarr _ => .error (.typeError "list indices must be integers or slices, not str")
  | .jstr _ => .error (.typeError "string indices must be integers")
  | .jnum _ => .error (.typeError "object is not subscriptable")

/-- Python subscript `v[i]` with an integer index. -/
def jGetIdx (v : JValue) (i : Nat) : Except PyError JValue :=
  match v with
  | .jarr xs =>
    match xs.get? i with
    | some x => .ok x
    | none => .error (.indexError "list index out of range")
  | .jstr s =>
    match s.toList.get? i with
    | some c => .ok (.jstr (String.mk [c]))
    | none => .error (.indexError "string index out of range")
  | .jobj _ => .error (.keyError (toString i))
  | .jnum _ => .error (.typeError "object is not subscriptable")

/-- Python iteration over a value: a list yields its elements, a string its
characters, a dict its keys; a number is not iterable. -/
def jIter (v : JValue) : Except PyError (List JValue) :=
  match v with
  | .jarr xs => .ok xs
  | .jstr s => .ok (s.toList.map (fun c => .jstr (String.mk [c])))
  | .jobj fields => .ok (fields.map (fun f => JValue.jstr f.1))
  | .jnum _ => .error (.typeError "object is not iterable")

/-- Python `x == 1` on a parsed JSON value: numeric equality with 1
(non-numbers are never equal to 1). -/
def pyEqOne : JValue → Bool
  | .jnum n => decide (n.m = (10 : Int) ^ n.e)
  | _ => false

/-- Python `xs.index(1)`: the first index whose element equals 1, or
`ValueError` when there is none. -/
def listIndex1 (xs : List JValue) : Except PyError Nat :=
  match xs.findIdx? pyEqOne with
  | some i => .ok i
  | none => .error (.valueNotFound "1 is not in list")

/-! ### The handler (`inference.py`) -/

/-- `_process_input` (source lines 39-46): JSON content type passes the body
through unchanged (an empty body stays the empty string); any other declared
content type raises a `ValueError` whose message is JSON text naming the
offending content type, or `"unknown"` when the header is absent or falsy.

Python `context.request_content_type or "unknown"`: `or` yields the
fallback exactly when the left operand is falsy (absent or the empty
string). -/
def contentTypeOrUnknown : Option String → String
  | none => "unknown"
  | some ct => if ct == "" then "unknown" else ct

/-- The `ValueError` message of `_process_input`:
`'{{"error": "unsupported content type {}"}}'.format(...)`. -/
def unsupportedMessage (ct : Option String) : String :=
  "\x7b\"error\": \"unsupported content type " ++ contentTypeOrUnknown ct ++ "\"\x7d"

def process_input (body : String) (context : Context) : Except PyError String :=
  if context.request_content_type == some "application/json" then
    .ok (if body.length != 0 then body else "")
  else
    .error (.unsupportedContentType (unsupportedMessage context.request_content_type))

/-- `_process_output` (source lines 49-55): a non-200 status raises a
`ValueError` carrying the response body decoded as text; otherwise the raw
body is returned together with the caller's accept header. -/
def process_output (data : Response) (context : Context) :
    Except PyError (String × String) :=
  if data.status_code != 200 then
    .error (.modelServerError data.content)
  else
    .ok (data.content, context.accept_header)

/-- The item-id extraction loop (source lines 18-22): for each instance read
`instance['input_2']` and take `.index(1)`, in input order, aborting the whole
request on the first failure.

`instance['input_2'].index(1)` for one instance: subscript, then
`.index(1)` (which only exists on lists; on a string it is a `TypeError`, on
a number or dict an attribute error, modeled as `TypeError` too). -/
def itemIdOf (inst : JValue) : Except PyError Nat := do
  let one_hot_encoded_item_id ← jGetKey inst "input_2"
  match one_hot_encoded_item_id with
  | .jarr xs => listIndex1 xs
  | .jstr _ => .error (.typeError "must be str, not int")
  | _ => .error (.typeError "object has no attribute index")

def extract_item_ids : List JValue → Except PyError (List Nat)
  | [] => .ok []
  | inst :: rest => do
    let item_id ← itemIdOf inst
    let item_ids ← extract_item_ids rest
    pure (item_id :: item_ids)

/-- One ranked entry: the Python dict `{"item_id": i, "prediction": p[0]}`. -/
structure ItemPrediction where
  item_id : Nat
  prediction : JNum
deriving DecidableEq, Repr

/-- The pairing comprehension (source line 31):
`[ {"item_id": i, "prediction": p[0]} for (i, p) in zip(item_ids, prediction_scores) ]`.
`zip` truncates to the shorter sequence.  The source lets a non-numeric `p[0]`
flow into the sort, which fails on its first comparison; this model requires
numeric scores already here (the difference is observable only when at most one
of the scores would ever be compared). -/
def pairScores : List Nat → List JValue → Except PyError (List ItemPrediction)
  | [], _ => .ok []
  | _, [] => .ok []
  | i :: item_ids, p :: prediction_scores => do
    let p0 ← jGetIdx p 0
    let n ← match p0 with
      | .jnum n => Except.ok n
      | _ => Except.error (.typeError "not supported between instances")
    let rest ← pairScores item_ids prediction_scores
    pure ({ item_id := i, prediction := n } :: rest)

/-- The sort key (source lines 4-5): `order_item_predictions(e) = e['prediction']`. -/
def order_item_predictions (e : ItemPrediction) : JNum :=
  e.prediction

/-- `list.sort(key=order_item_predictions, reverse=True)` as a comparator:
`a` may precede `b` iff `b`'s key is ≤ `a`'s key.  A stable sort with this
comparator is exactly Python's stable descending key-sort; the model performs
it with `List.insertionSort`, which is stable like Python's sort (a stable
sort's output is determined by the comparator, so the choice of stable
algorithm is immaterial). -/
def sortRel (a b : ItemPrediction) : Prop :=
  JNum.le (order_item_predictions b) (order_item_predictions a) = true

instance : DecidableRel sortRel := fun a b =>
  instDecidableEqBool (JNum.le (order_item_predictions b) (order_item_predictions a)) true

/-- Serialization of one ranked entry as a Python dict in insertion order. -/
def itemPredictionToJson (e : ItemPrediction) : JValue :=
  .jobj [("item_id", .jnum ⟨(e.item_id : Int), 0⟩), ("prediction", .jnum e.prediction)]

/-- Source lines 33-35: wrap the ranked list under a `predictions` key and
`json.dumps` it. -/
def render_output (l : List ItemPrediction) : String :=
  json_dumps (.jobj [("predictions", .jarr (l.map itemPredictionToJson))])

/-- `handler` (source lines 7-36).  `server` models `requests.post` as a pure
function from (uri, body) to the model server's response; the second component
of the result is the list of bodies POSTed to the model server (empty when the
handler fails before the call, a singleton afterwards), making "the model
server is never called" statable.  Errors are the propagating Python
exceptions. -/
def handler (body : String) (context : Context)
    (server : String → String → Response) :
    Except PyError (String × String) × List String :=
  match process_input body context with
  | .error e => (.error e, [])
  | .ok processed_input =>
    match json_loads processed_input with
    | .error e => (.error e, [])
    | .ok processed_input_json =>
      match jGetKey processed_input_json "instances" with
      | .error e => (.error e, [])
      | .ok instancesVal =>
        match jIter instancesVal with
        | .error e => (.error e, [])
        | .ok instances =>
          match extract_item_ids instances with
          | .error e => (.error e, [])
          | .ok item_ids =>
            let response := server context.rest_uri processed_input
            match process_output response context with
            | .error e => (.error e, [processed_input])
            | .ok pr =>
              match json_loads pr.1 with
              | .error e => (.error e, [processed_input])
              | .ok pred_json =>
                match jGetKey pred_json "predictions" with
                | .error e => (.error e, [processed_input])
                | .ok scoresVal =>
                  match jIter scoresVal with
                  | .error e => (.error e, [processed_input])
                  | .ok prediction_scores =>
                    match pairScores item_ids prediction_scores with
                    | .error e => (.error e, [processed_input])
                    | .ok item_prediction_scores =>
                      (.ok (render_output (List.insertionSort sortRel item_prediction_scores), pr.2),
                        [processed_input])

/-! ### Order facts about the sort comparator -/

/-- `JNum.le` decides the order of the denoted rational values. -/
theorem JNum.le_iff_toRat (a b : JNum) : JNum.le a b = true ↔ a.toRat ≤ b.toRat := by
  have ha : (0 : ℚ) < (10 : ℚ) ^ a.e := by positivity
  have hb : (0 : ℚ) < (10 : ℚ) ^ b.e := by positivity
  rw [JNum.le, decide_eq_true_iff, JNum.toRat, JNum.toRat, div_le_div_iff₀ ha hb]
  constructor
  · intro h
    exact_mod_cast h
  · intro h
    exact_mod_cast h

/-- `JNum.valEq` decides equality of the denoted rational values. -/
theorem JNum.valEq_iff_toRat (a b : JNum) : JNum.valEq a b = true ↔ a.toRat = b.toRat := by
  have ha : ((10 : ℚ) ^ a.e) ≠ 0 := by positivity
  have hb : ((10 : ℚ) ^ b.e) ≠ 0 := by positivity
  rw [JNum.valEq, decide_eq_true_iff, JNum.toRat, JNum.toRat, div_eq_div_iff ha hb]
  constructor
  · intro h
    exact_mod_cast h
  · intro h
    exact_mod_cast h

instance : IsTotal ItemPrediction sortRel where
  total a b := by
    rw [sortRel, sortRel, JNum.le_iff_toRat, JNum.le_iff_toRat]
    exact (le_total _ _).symm

instance : IsTrans ItemPrediction sortRel where
  trans a b c hab hbc := by
    rw [sortRel, JNum.le_iff_toRat] at *
    exact le_trans hbc hab

/-! ### Concrete scenario data (spec §8.5) -/

/-- The concrete request body of spec §8.5:
`{"instances": [{"input_2":[0,1,0]}, {"input_2":[1,0,0]}]}`. -/
def scenarioBody : String :=
  "\x7b\"instances\": [\x7b\"input_2\":[0,1,0]\x7d, \x7b\"input_2\":[1,0,0]\x7d]\x7d"

/-- A JSON-content-type request context. -/
def scenarioContext : Context :=
  { request_content_type := some "application/json"
    accept_header := "application/json"
    rest_uri := "http://localhost:8501/v1/models/half_plus_two:predict" }

/-- A model server answering status 200 with body
`{"predictions": [[0.2],[0.9]]}` (spec §8.5). -/
def scenarioServer : String → String → Response := fun _ _ =>
  { status_code := 200, content := "\x7b\"predictions\": [[0.2],[0.9]]\x7d" }

/-- The text spec §8.5 expects: no space after `:` or `,`. -/
def scenarioSpecOutput : String :=
  "\x7b\"predictions\":[\x7b\"item_id\":0,\"prediction\":0.9\x7d,\x7b\"item_id\":1,\"prediction\":0.2\x7d]\x7d"

/-- The text the code produces: the same JSON, but serialized with Python's
`json.dumps` default separators `", "` and `": "`. -/
def scenarioCodeOutput : String :=
  "\x7b\"predictions\": [\x7b\"item_id\": 0, \"prediction\": 0.9\x7d, \x7b\"item_id\": 1, \"prediction\": 0.2\x7d]\x7d"

/-- C1, as stated, is false: on the §8.5 scenario the handler succeeds, but
the text it returns is not the space-free serialization the spec displays —
`json.dumps` with default separators puts a space after each `:` and `,`. -/
theorem c1_exact_text_counterexample :
    (handler scenarioBody scenarioContext scenarioServer).1 ≠
      Except.ok (scenarioSpecOutput, "application/json") := by
  intro h
  have hcode : (handler scenarioBody scenarioContext scenarioServer).1 =
      Except.ok (scenarioCodeOutput, "application/json") := rfl
  rw [hcode] at h
  simp only [Except.ok.injEq, Prod.mk.injEq] at h
  exact absurd h.1 (by decide)

/-- C1 (amended): on the §8.5 scenario — body
`{"instances": [{"input_2":[0,1,0]}, {"input_2":[1,0,0]}]}` with JSON content
type, model answering 200 with `{"predictions": [[0.2],[0.9]]}` — the handler
returns exactly the text
`{"predictions": [{"item_id": 0, "prediction": 0.9}, {"item_id": 1, "prediction": 0.2}]}`
(the ranked pairs of the spec, serialized with `json.dumps`'s default
separators), and POSTs the body verbatim exactly once. -/
theorem c1_concrete_scenario :
    handler scenarioBody scenarioContext scenarioServer =
      (Except.ok (scenarioCodeOutput, "application/json"), [scenarioBody]) := rfl

/-- Shorthand for a JSON integer literal value. -/
def jint (k : Int) : JValue := JValue.jnum ⟨k, 0⟩

/-- The value `json.loads` yields for `scenarioBody`. -/
def scenarioInstances : List JValue :=
  [JValue.jobj [("input_2", JValue.jarr [jint 0, jint 1, jint 0])],
   JValue.jobj [("input_2", JValue.jarr [jint 1, jint 0, jint 0])]]

/-- The parsed §8.5 request body. -/
def scenarioParsedBody : JValue :=
  JValue.jobj [("instances", JValue.jarr scenarioInstances)]

/-- C4: whenever the declared request content type is not exactly
`application/json` (e.g. `text/plain`, or absent), the handler fails with the
`UnsupportedContentType` error whose message is the JSON text naming the
offending content type (`"unknown"` when absent or empty), and no POST to the
model server is made (the trace of outbound calls is empty). -/
theorem c4_content_type_rejection (body : String) (ctx : Context)
    (server : String → String → Response)
    (h : ctx.request_content_type ≠ some "application/json") :
    handler body ctx server =
      (Except.error (PyError.unsupportedContentType
        (unsupportedMessage ctx.request_content_type)), []) := by
  have hb : (ctx.request_content_type == some "application/json") = false := by
    simpa using h
  simp [handler, process_input, hb]

/-- C4 at the concrete content type `text/plain`: the handler fails with the
JSON-formatted message and the model server is never called. -/
theorem c4_witness :
    handler scenarioBody
      { scenarioContext with request_content_type := some "text/plain" }
      scenarioServer =
      (Except.error (PyError.unsupportedContentType
        "\x7b\"error\": \"unsupported content type text/plain\"\x7d"), []) :=
  c4_content_type_rejection scenarioBody
    { scenarioContext with request_content_type := some "text/plain" }
    scenarioServer (by decide)

/-- C5: whenever the request side succeeds (content type accepted, body
parsed, instances iterated, every item id extracted) and the model server
answers with a status other than 200, the handler fails with the
`ModelServerError` carrying exactly the response body text, after exactly one
POST; no ranked response is produced. -/
theorem c5_model_error_propagation (body : String) (ctx : Context)
    (server : String → String → Response) (pin : String) (j instV : JValue)
    (insts : List JValue) (ids : List Nat)
    (h1 : process_input body ctx = .ok pin)
    (h2 : json_loads pin = .ok j)
    (h3 : jGetKey j "instances" = .ok instV)
    (h4 : jIter instV = .ok insts)
    (h5 : extract_item_ids insts = .ok ids)
    (h6 : (server ctx.rest_uri pin).status_code ≠ 200) :
    handler body ctx server =
      (Except.error (PyError.modelServerError (server ctx.rest_uri pin).content),
        [pin]) := by
  have hb : ((server ctx.rest_uri pin).status_code != 200) = true := by
    simpa using h6
  simp [handler, h1, h2, h3, h4, h5, process_output, hb]

/-- C5 at the concrete response status 500 with body `server overloaded`:
the error carries exactly that text. -/
theorem c5_witness :
    handler scenarioBody scenarioContext
      (fun _ _ => { status_code := 500, content := "server overloaded" }) =
      (Except.error (PyError.modelServerError "server overloaded"),
        [scenarioBody]) :=
  c5_model_error_propagation scenarioBody scenarioContext
    (fun _ _ => { status_code := 500, content := "server overloaded" })
    scenarioBody scenarioParsedBody (JValue.jarr scenarioInstances)
    scenarioInstances [1, 0] rfl rfl rfl rfl rfl (by decide)

/-- Reduction of `Except` bind on a success, for rewriting the monadic
definitions. -/
@[simp] theorem pyBindOk {α β : Type} (a : α) (f : α → Except PyError β) :
    (Except.ok a >>= f) = f a := rfl

/-- Reduction of `Except` bind on a failure. -/
@[simp] theorem pyBindError {α β : Type} (e : PyError) (f : α → Except PyError β) :
    ((Except.error e : Except PyError α) >>= f) = Except.error e := rfl

/-- Reduction of `Except` map on a success. -/
@[simp] theorem pyMapOk {α β : Type} (a : α) (f : α → β) :
    (f <$> (Except.ok a : Except PyError α)) = Except.ok (f a) := rfl

/-- Reduction of `Except` map on a failure. -/
@[simp] theorem pyMapError {α β : Type} (e : PyError) (f : α → β) :
    (f <$> (Except.error e : Except PyError α)) = Except.error e := rfl

/-- `pure` on `Except` is `Except.ok`. -/
@[simp] theorem pyPureEq {α : Type} (a : α) :
    (pure a : Except PyError α) = Except.ok a := rfl

/-- The only error `listIndex1` raises is the `ValueError` of `.index(1)`. -/
theorem listIndex1_error_eq {v : List JValue} {e : PyError}
    (h : listIndex1 v = .error e) : e = .valueNotFound "1 is not in list" := by
  rw [listIndex1] at h
  cases hfi : v.findIdx? pyEqOne with
  | none => rw [hfi] at h; exact (Except.error.injEq _ _).mp h.symm
  | some i => rw [hfi] at h; cases h

/-- If every instance carries a one-hot list under `input_2` and some
instance's list has no element equal to 1, the extraction loop aborts with the
`ValueError` of `.index(1)` — no instance is skipped and no id list is
produced. -/
theorem extract_item_ids_valueNotFound (insts : List JValue)
    (hwf : ∀ inst ∈ insts, ∃ v, jGetKey inst "input_2" = .ok (.jarr v))
    (hbad : ∃ inst ∈ insts, ∃ v, jGetKey inst "input_2" = .ok (.jarr v) ∧
      ∀ x ∈ v, pyEqOne x = false) :
    extract_item_ids insts = .error (.valueNotFound "1 is not in list") := by
  induction insts with
  | nil => obtain ⟨inst, hmem, -⟩ := hbad; cases hmem
  | cons inst rest ih =>
    obtain ⟨v, hv⟩ := hwf inst (List.mem_cons_self inst rest)
    cases hfi : v.findIdx? pyEqOne with
    | none =>
      simp [extract_item_ids, itemIdOf, hv, listIndex1, hfi]
    | some i =>
      have hbadr : ∃ b ∈ rest, ∃ w, jGetKey b "input_2" = .ok (.jarr w) ∧
          ∀ x ∈ w, pyEqOne x = false := by
        obtain ⟨b, hbmem, w, hw, hall⟩ := hbad
        rcases List.mem_cons.mp hbmem with rfl | hbr
        · rw [hv] at hw
          cases hw
          rw [List.findIdx?_eq_none_iff.mpr hall] at hfi
          cases hfi
        · exact ⟨b, hbr, w, hw, hall⟩
      have hrest := ih (fun b hb => hwf b (List.mem_cons_of_mem inst hb)) hbadr
      simp [extract_item_ids, itemIdOf, hv, listIndex1, hfi, hrest]

/-- C6: on a request whose every instance holds a one-hot list under
`input_2`, if any of those lists contains no element equal to 1, the handler
fails for the whole request with the `ValueError` of `.index(1)` (the spec's
`ValueNotFound`): no output is produced, no instance is silently skipped, and
the model server is never called. -/
theorem c6_value_not_found (body : String) (ctx : Context)
    (server : String → String → Response) (pin : String) (j instV : JValue)
    (insts : List JValue)
    (h1 : process_input body ctx = .ok pin)
    (h2 : json_loads pin = .ok j)
    (h3 : jGetKey j "instances" = .ok instV)
    (h4 : jIter instV = .ok insts)
    (hwf : ∀ inst ∈ insts, ∃ v, jGetKey inst "input_2" = .ok (.jarr v))
    (hbad : ∃ inst ∈ insts, ∃ v, jGetKey inst "input_2" = .ok (.jarr v) ∧
      ∀ x ∈ v, pyEqOne x = false) :
    handler body ctx server =
      (Except.error (PyError.valueNotFound "1 is not in list"), []) := by
  simp [handler, h1, h2, h3, h4, extract_item_ids_valueNotFound insts hwf hbad]

/-- The request body `{"instances": [{"input_2":[0,1,0]}, {"input_2":[0,0,0]}]}`,
whose second instance has no 1. -/
def noOneBody : String :=
  "\x7b\"instances\": [\x7b\"input_2\":[0,1,0]\x7d, \x7b\"input_2\":[0,0,0]\x7d]\x7d"

/-- The instances `json.loads` yields for `noOneBody`. -/
def noOneInstances : List JValue :=
  [JValue.jobj [("input_2", JValue.jarr [jint 0, jint 1, jint 0])],
   JValue.jobj [("input_2", JValue.jarr [jint 0, jint 0, jint 0])]]

/-- C6 at a concrete batch whose second one-hot vector is all zeros. -/
theorem c6_witness :
    handler noOneBody scenarioContext scenarioServer =
      (Except.error (PyError.valueNotFound "1 is not in list"), []) :=
  c6_value_not_found noOneBody scenarioContext scenarioServer noOneBody
    (JValue.jobj [("instances", JValue.jarr noOneInstances)])
    (JValue.jarr noOneInstances) noOneInstances rfl rfl rfl rfl
    (by
      intro inst hmem
      rcases List.mem_cons.mp hmem with rfl | hmem
      · exact ⟨[jint 0, jint 1, jint 0], rfl⟩
      rcases List.mem_cons.mp hmem with rfl | hmem
      · exact ⟨[jint 0, jint 0, jint 0], rfl⟩
      cases hmem)
    ⟨JValue.jobj [("input_2", JValue.jarr [jint 0, jint 0, jint 0])],
      List.Mem.tail _ (List.Mem.head _),
      [jint 0, jint 0, jint 0], rfl, by decide⟩

/-- C7: for an instance whose `input_2` one-hot list contains at least one
element equal to 1, `.index(1)` succeeds and returns the zero-based index of
the first such element — every earlier position is not equal to 1, and extra
1-entries later in the list raise no error. -/
theorem c7_first_one_index (v : List JValue) (x : JValue)
    (hx : x ∈ v) (h1 : pyEqOne x = true) :
    ∃ i, listIndex1 v = .ok i ∧
      itemIdOf (JValue.jobj [("input_2", JValue.jarr v)]) = .ok i ∧
      ∃ hi : i < v.length, pyEqOne (v.get ⟨i, hi⟩) = true ∧
        ∀ j, ∀ hj : j < v.length, j < i → pyEqOne (v.get ⟨j, hj⟩) = false := by
  have hsome := List.findIdx?_eq_some_of_exists ⟨x, hx, h1⟩
  have hlt : v.findIdx pyEqOne < v.length :=
    List.findIdx_lt_length_of_exists ⟨x, hx, h1⟩
  refine ⟨v.findIdx pyEqOne, ?_, ?_, hlt, ?_, ?_⟩
  · rw [listIndex1, hsome]
  · simp [itemIdOf, jGetKey, List.find?, listIndex1, hsome]
  · simpa [List.get_eq_getElem] using List.findIdx_getElem (w := hlt)
  · intro j hj hlt2
    simpa [List.get_eq_getElem] using List.not_of_lt_findIdx hlt2

/-- C7 at the concrete one-hot list `[0,1,1]` (two 1-entries): `.index(1)`
returns the smallest index 1 and raises no error. -/
theorem c7_witness :
    ∃ i, listIndex1 [jint 0, jint 1, jint 1] = .ok i ∧
      itemIdOf (JValue.jobj [("input_2", JValue.jarr [jint 0, jint 1, jint 1])]) =
        .ok i ∧
      ∃ hi : i < ([jint 0, jint 1, jint 1] : List JValue).length,
        pyEqOne (([jint 0, jint 1, jint 1] : List JValue).get ⟨i, hi⟩) = true ∧
        ∀ j, ∀ hj : j < ([jint 0, jint 1, jint 1] : List JValue).length,
          j < i → pyEqOne (([jint 0, jint 1, jint 1] : List JValue).get ⟨j, hj⟩) = false :=
  c7_first_one_index [jint 0, jint 1, jint 1] (jint 1)
    (List.Mem.tail _ (List.Mem.head _)) rfl

/-- The empty-batch request body of spec §8.6. -/
def emptyBody : String := "\x7b\"instances\": []\x7d"

/-- C8: for the body `{"instances": []}` with JSON content type, the handler
POSTs that body verbatim exactly once, and — whatever (parseable) predictions
list the model returns with status 200 — answers with exactly the text
`{"predictions": []}` (`zip` against the empty id list discards every
score). -/
theorem c8_empty_batch (ctx : Context) (server : String → String → Response)
    (pj scoresV : JValue) (scores : List JValue)
    (hct : ctx.request_content_type = some "application/json")
    (h200 : (server ctx.rest_uri emptyBody).status_code = 200)
    (hpj : json_loads (server ctx.rest_uri emptyBody).content = .ok pj)
    (hkey : jGetKey pj "predictions" = .ok scoresV)
    (hiter : jIter scoresV = .ok scores) :
    handler emptyBody ctx server =
      (Except.ok ("\x7b\"predictions\": []\x7d", ctx.accept_header), [emptyBody]) := by
  have hpin : process_input emptyBody ctx = .ok emptyBody := by
    rw [process_input, hct]
    rfl
  have hparse : json_loads emptyBody = .ok (JValue.jobj [("instances", JValue.jarr [])]) :=
    rfl
  have hkey0 : jGetKey (JValue.jobj [("instances", JValue.jarr [])]) "instances" =
      .ok (JValue.jarr []) := rfl
  have hiter0 : jIter (JValue.jarr ([] : List JValue)) = .ok [] := rfl
  have hids : extract_item_ids [] = .ok [] := rfl
  have hout : process_output (server ctx.rest_uri emptyBody) ctx =
      .ok ((server ctx.rest_uri emptyBody).content, ctx.accept_header) := by
    rw [process_output]
    simp [h200]
  have hpair : pairScores [] scores = .ok [] := by cases scores <;> rfl
  simp only [handler, hpin, hparse, hkey0, hiter0, hids, hout, hpj, hkey, hiter, hpair]
  rfl

/-- C8 at the concrete §8.5 model server (whose predictions list is
`[[0.2],[0.9]]`): the extra scores are ignored and the output is the empty
ranked list. -/
theorem c8_witness :
    handler emptyBody scenarioContext scenarioServer =
      (Except.ok ("\x7b\"predictions\": []\x7d", "application/json"), [emptyBody]) :=
  c8_empty_batch scenarioContext scenarioServer
    (JValue.jobj [("predictions",
      JValue.jarr [JValue.jarr [JValue.jnum ⟨2, 1⟩], JValue.jarr [JValue.jnum ⟨9, 1⟩]])])
    (JValue.jarr [JValue.jarr [JValue.jnum ⟨2, 1⟩], JValue.jarr [JValue.jnum ⟨9, 1⟩]])
    [JValue.jarr [JValue.jnum ⟨2, 1⟩], JValue.jarr [JValue.jnum ⟨9, 1⟩]]
    rfl rfl rfl rfl rfl

/-- C2: on every successful invocation, the returned text serializes a ranked
list whose prediction values are non-increasing from the first entry to the
last (descending sort correctness). -/
theorem c2_sort_nonincreasing (body : String) (ctx : Context)
    (server : String → String → Response) (s ct : String)
    (hok : (handler body ctx server).1 = Except.ok (s, ct)) :
    ∃ l : List ItemPrediction, s = render_output l ∧
      l.Pairwise (fun a b =>
        (order_item_predictions b).toRat ≤ (order_item_predictions a).toRat) := by
  simp only [handler] at hok
  cases h1 : process_input body ctx with
  | error e => simp [h1] at hok
  | ok pin =>
  simp only [h1] at hok
  cases h2 : json_loads pin with
  | error e => simp [h2] at hok
  | ok j =>
  simp only [h2] at hok
  cases h3 : jGetKey j "instances" with
  | error e => simp [h3] at hok
  | ok instV =>
  simp only [h3] at hok
  cases h4 : jIter instV with
  | error e => simp [h4] at hok
  | ok insts =>
  simp only [h4] at hok
  cases h5 : extract_item_ids insts with
  | error e => simp [h5] at hok
  | ok ids =>
  simp only [h5] at hok
  cases h6 : process_output (server ctx.rest_uri pin) ctx with
  | error e => simp [h6] at hok
  | ok pr =>
  simp only [h6] at hok
  cases h7 : json_loads pr.1 with
  | error e => simp [h7] at hok
  | ok pj =>
  simp only [h7] at hok
  cases h8 : jGetKey pj "predictions" with
  | error e => simp [h8] at hok
  | ok scoresV =>
  simp only [h8] at hok
  cases h9 : jIter scoresV with
  | error e => simp [h9] at hok
  | ok scores =>
  simp only [h9] at hok
  cases h10 : pairScores ids scores with
  | error e => simp [h10] at hok
  | ok entries =>
  simp only [h10] at hok
  simp only [Except.ok.injEq, Prod.mk.injEq] at hok
  refine ⟨List.insertionSort sortRel entries, hok.1.symm, ?_⟩
  exact (List.sorted_insertionSort sortRel entries).imp
    (fun hab => (JNum.le_iff_toRat _ _).mp hab)

/-- C2 at the §8.5 scenario: the returned text serializes a non-increasing
ranked list. -/
theorem c2_witness :
    ∃ l : List ItemPrediction, scenarioCodeOutput = render_output l ∧
      l.Pairwise (fun a b =>
        (order_item_predictions b).toRat ≤ (order_item_predictions a).toRat) :=
  c2_sort_nonincreasing scenarioBody scenarioContext scenarioServer
    scenarioCodeOutput "application/json" rfl

/-- The extraction loop yields one id per instance. -/
theorem extract_item_ids_length {insts : List JValue} {ids : List Nat}
    (h : extract_item_ids insts = .ok ids) : ids.length = insts.length := by
  induction insts generalizing ids with
  | nil =>
    rw [extract_item_ids] at h
    cases h
    rfl
  | cons inst rest ih =>
    simp only [extract_item_ids] at h
    cases hh : itemIdOf inst with
    | error e => simp [hh] at h
    | ok i =>
      simp only [hh, pyBindOk] at h
      cases hr : extract_item_ids rest with
      | error e => simp [hr] at h
      | ok l =>
        simp only [hr, pyBindOk, pyPureEq, pyMapOk, Except.ok.injEq] at h
        subst h
        simp [ih hr]

/-- The pairing comprehension pairs positionally: the result has
`min` length and carries the first `scores.length` ids in input order. -/
theorem pairScores_spec {ids : List Nat} {scores : List JValue}
    {entries : List ItemPrediction} (h : pairScores ids scores = .ok entries) :
    entries.length = min ids.length scores.length ∧
    entries.map ItemPrediction.item_id = ids.take scores.length := by
  induction ids generalizing scores entries with
  | nil =>
    have hok : pairScores [] scores = .ok [] := by cases scores <;> rfl
    rw [hok] at h
    cases h
    simp
  | cons i ids ih =>
    cases scores with
    | nil =>
      have hok : pairScores (i :: ids) [] = .ok [] := rfl
      rw [hok] at h
      cases h
      simp
    | cons p ps =>
      simp only [pairScores] at h
      cases hp : jGetIdx p 0 with
      | error e => simp [hp] at h
      | ok p0 =>
        simp only [hp, pyBindOk] at h
        cases p0 with
        | jnum n =>
          simp only [pyBindOk] at h
          cases hr : pairScores ids ps with
          | error e => simp [hr] at h
          | ok rest =>
            simp only [hr, pyBindOk, pyPureEq, Except.ok.injEq] at h
            subst h
            obtain ⟨hl, hm⟩ := ih hr
            refine ⟨?_, ?_⟩
            · simp [hl, Nat.succ_min_succ]
            · simp [hm]
        | jstr a => simp at h
        | jarr a => simp at h
        | jobj a => simp at h

/-- C3: on a valid request (all stages succeed) whose model response has
exactly one prediction per instance, the handler succeeds, its ranked output
list has the same length as the input `instances`, and the multiset of
`item_id` values in the output equals the multiset of one-hot indices
extracted from the input — no duplicates, no omissions. -/
theorem c3_roundtrip_ids (body : String) (ctx : Context)
    (server : String → String → Response) (pin : String) (j instV : JValue)
    (insts : List JValue) (ids : List Nat) (pr : String × String)
    (pj scoresV : JValue) (scores : List JValue) (entries : List ItemPrediction)
    (h1 : process_input body ctx = .ok pin)
    (h2 : json_loads pin = .ok j)
    (h3 : jGetKey j "instances" = .ok instV)
    (h4 : jIter instV = .ok insts)
    (h5 : extract_item_ids insts = .ok ids)
    (h6 : process_output (server ctx.rest_uri pin) ctx = .ok pr)
    (h7 : json_loads pr.1 = .ok pj)
    (h8 : jGetKey pj "predictions" = .ok scoresV)
    (h9 : jIter scoresV = .ok scores)
    (h10 : pairScores ids scores = .ok entries)
    (hlen : scores.length = insts.length) :
    handler body ctx server =
      (Except.ok (render_output (List.insertionSort sortRel entries), pr.2), [pin]) ∧
    (List.insertionSort sortRel entries).length = insts.length ∧
    (((List.insertionSort sortRel entries).map ItemPrediction.item_id : List Nat) :
      Multiset Nat) = (ids : Multiset Nat) := by
  have hids := extract_item_ids_length h5
  obtain ⟨hel, hem⟩ := pairScores_spec h10
  refine ⟨?_, ?_, ?_⟩
  · simp [handler, h1, h2, h3, h4, h5, h6, h7, h8, h9, h10]
  · rw [List.length_insertionSort, hel, hids, hlen, Nat.min_self]
  · have hperm := (List.perm_insertionSort sortRel entries).map ItemPrediction.item_id
    rw [hem] at hperm
    have htake : ids.take scores.length = ids := by
      rw [hlen, ← hids, List.take_length]
    rw [htake] at hperm
    exact Multiset.coe_eq_coe.mpr hperm

/-- The §8.5 model response, parsed. -/
def scenarioScores : List JValue :=
  [JValue.jarr [JValue.jnum ⟨2, 1⟩], JValue.jarr [JValue.jnum ⟨9, 1⟩]]

/-- C3 at the §8.5 scenario: output length 2 and `item_id` multiset
`{1, 0}`. -/
theorem c3_witness :
    handler scenarioBody scenarioContext scenarioServer =
      (Except.ok (render_output (List.insertionSort sortRel
        [⟨1, ⟨2, 1⟩⟩, ⟨0, ⟨9, 1⟩⟩]), "application/json"), [scenarioBody]) ∧
    (List.insertionSort sortRel
      ([⟨1, ⟨2, 1⟩⟩, ⟨0, ⟨9, 1⟩⟩] : List ItemPrediction)).length =
      scenarioInstances.length ∧
    (((List.insertionSort sortRel
        ([⟨1, ⟨2, 1⟩⟩, ⟨0, ⟨9, 1⟩⟩] : List ItemPrediction)).map
        ItemPrediction.item_id : List Nat) : Multiset Nat) = ([1, 0] : List Nat) :=
  c3_roundtrip_ids scenarioBody scenarioContext scenarioServer scenarioBody
    scenarioParsedBody (JValue.jarr scenarioInstances) scenarioInstances [1, 0]
    ("\x7b\"predictions\": [[0.2],[0.9]]\x7d", "application/json")
    (JValue.jobj [("predictions", JValue.jarr scenarioScores)])
    (JValue.jarr scenarioScores) scenarioScores [⟨1, ⟨2, 1⟩⟩, ⟨0, ⟨9, 1⟩⟩]
    rfl rfl rfl rfl rfl rfl rfl rfl rfl rfl rfl

/-- C9: on every successful invocation, two ranked entries whose prediction
scores are (numerically) equal keep, in the sorted output, the relative order
their instances had in the input batch: any such pair that is a sublist of the
positionally-paired entry list is still a sublist of the sorted list. -/
theorem c9_stable_ties (body : String) (ctx : Context)
    (server : String → String → Response) (pin : String) (j instV : JValue)
    (insts : List JValue) (ids : List Nat) (pr : String × String)
    (pj scoresV : JValue) (scores : List JValue) (entries : List ItemPrediction)
    (h1 : process_input body ctx = .ok pin)
    (h2 : json_loads pin = .ok j)
    (h3 : jGetKey j "instances" = .ok instV)
    (h4 : jIter instV = .ok insts)
    (h5 : extract_item_ids insts = .ok ids)
    (h6 : process_output (server ctx.rest_uri pin) ctx = .ok pr)
    (h7 : json_loads pr.1 = .ok pj)
    (h8 : jGetKey pj "predictions" = .ok scoresV)
    (h9 : jIter scoresV = .ok scores)
    (h10 : pairScores ids scores = .ok entries) :
    handler body ctx server =
      (Except.ok (render_output (List.insertionSort sortRel entries), pr.2), [pin]) ∧
    ∀ a b : ItemPrediction, List.Sublist [a, b] entries →
      JNum.valEq a.prediction b.prediction = true →
      List.Sublist [a, b] (List.insertionSort sortRel entries) := by
  refine ⟨by simp [handler, h1, h2, h3, h4, h5, h6, h7, h8, h9, h10], ?_⟩
  intro a b hsub heq
  refine List.pair_sublist_insertionSort ?_ hsub
  have hv : b.prediction.toRat ≤ a.prediction.toRat :=
    le_of_eq ((JNum.valEq_iff_toRat _ _).mp heq).symm
  exact (JNum.le_iff_toRat _ _).mpr hv

/-- A model server answering the §8.5 batch with the tied scores
`[[0.5],[0.5]]`. -/
def tieServer : String → String → Response := fun _ _ =>
  { status_code := 200, content := "\x7b\"predictions\": [[0.5],[0.5]]\x7d" }

/-- The tied scores, parsed. -/
def tieScores : List JValue :=
  [JValue.jarr [JValue.jnum ⟨5, 1⟩], JValue.jarr [JValue.jnum ⟨5, 1⟩]]

/-- C9 at a concrete batch with equal scores 0.5 and 0.5: the handler
succeeds and every value-equal pair of paired entries keeps its input
order in the sorted output. -/
theorem c9_witness :
    handler scenarioBody scenarioContext tieServer =
      (Except.ok (render_output (List.insertionSort sortRel
        [⟨1, ⟨5, 1⟩⟩, ⟨0, ⟨5, 1⟩⟩]), "application/json"), [scenarioBody]) ∧
    ∀ a b : ItemPrediction,
      List.Sublist [a, b] ([⟨1, ⟨5, 1⟩⟩, ⟨0, ⟨5, 1⟩⟩] : List ItemPrediction) →
      JNum.valEq a.prediction b.prediction = true →
      List.Sublist [a, b] (List.insertionSort sortRel
        ([⟨1, ⟨5, 1⟩⟩, ⟨0, ⟨5, 1⟩⟩] : List ItemPrediction)) :=
  c9_stable_ties scenarioBody scenarioContext tieServer scenarioBody
    scenarioParsedBody (JValue.jarr scenarioInstances) scenarioInstances [1, 0]
    ("\x7b\"predictions\": [[0.5],[0.5]]\x7d", "application/json")
    (JValue.jobj [("predictions", JValue.jarr tieScores)])
    (JValue.jarr tieScores) tieScores [⟨1, ⟨5, 1⟩⟩, ⟨0, ⟨5, 1⟩⟩]
    rfl rfl rfl rfl rfl rfl rfl rfl rfl rfl

/-- C10: when the model's predictions sequence and the instances sequence
have different lengths (but every retained score is a non-empty numeric
list), the handler does not fail: `zip` pairs positionally, the output list's
length is the minimum of the id count and the score count, and the retained
ids are exactly the first `scores.length` ids in order — the surplus on
either side is silently dropped. -/
theorem c10_length_mismatch (body : String) (ctx : Context)
    (server : String → String → Response) (pin : String) (j instV : JValue)
    (insts : List JValue) (ids : List Nat) (pr : String × String)
    (pj scoresV : JValue) (scores : List JValue) (entries : List ItemPrediction)
    (h1 : process_input body ctx = .ok pin)
    (h2 : json_loads pin = .ok j)
    (h3 : jGetKey j "instances" = .ok instV)
    (h4 : jIter instV = .ok insts)
    (h5 : extract_item_ids insts = .ok ids)
    (h6 : process_output (server ctx.rest_uri pin) ctx = .ok pr)
    (h7 : json_loads pr.1 = .ok pj)
    (h8 : jGetKey pj "predictions" = .ok scoresV)
    (h9 : jIter scoresV = .ok scores)
    (h10 : pairScores ids scores = .ok entries) :
    handler body ctx server =
      (Except.ok (render_output (List.insertionSort sortRel entries), pr.2), [pin]) ∧
    (List.insertionSort sortRel entries).length = min ids.length scores.length ∧
    entries.map ItemPrediction.item_id = ids.take scores.length := by
  obtain ⟨hel, hem⟩ := pairScores_spec h10
  refine ⟨?_, ?_, hem⟩
  · simp [handler, h1, h2, h3, h4, h5, h6, h7, h8, h9, h10]
  · rw [List.length_insertionSort]
    exact hel

/-- A model server answering the 2-instance §8.5 batch with three scores
`[[0.5],[0.3],[0.8]]`. -/
def surplusServer : String → String → Response := fun _ _ =>
  { status_code := 200, content := "\x7b\"predictions\": [[0.5],[0.3],[0.8]]\x7d" }

/-- The three surplus scores, parsed. -/
def surplusScores : List JValue :=
  [JValue.jarr [JValue.jnum ⟨5, 1⟩], JValue.jarr [JValue.jnum ⟨3, 1⟩],
   JValue.jarr [JValue.jnum ⟨8, 1⟩]]

/-- C10 at a concrete mismatch — 2 instances, 3 predictions: the handler
succeeds and the output has min 2 3 = 2 entries pairing the ids
positionally; the third score is dropped. -/
theorem c10_witness :
    handler scenarioBody scenarioContext surplusServer =
      (Except.ok (render_output (List.insertionSort sortRel
        [⟨1, ⟨5, 1⟩⟩, ⟨0, ⟨3, 1⟩⟩]), "application/json"), [scenarioBody]) ∧
    (List.insertionSort sortRel
      ([⟨1, ⟨5, 1⟩⟩, ⟨0, ⟨3, 1⟩⟩] : List ItemPrediction)).length =
      min ([1, 0] : List Nat).length surplusScores.length ∧
    ([⟨1, ⟨5, 1⟩⟩, ⟨0, ⟨3, 1⟩⟩] : List ItemPrediction).map ItemPrediction.item_id =
      ([1, 0] : List Nat).take surplusScores.length :=
  c10_length_mismatch scenarioBody scenarioContext surplusServer scenarioBody
    scenarioParsedBody (JValue.jarr scenarioInstances) scenarioInstances [1, 0]
    ("\x7b\"predictions\": [[0.5],[0.3],[0.8]]\x7d", "application/json")
    (JValue.jobj [("predictions", JValue.jarr surplusScores)])
    (JValue.jarr surplusScores) surplusScores [⟨1, ⟨5, 1⟩⟩, ⟨0, ⟨3, 1⟩⟩]
    rfl rfl rfl rfl rfl rfl rfl rfl rfl rfl
